import Mathlib

/-!
Verification of the budget-tracker application
(src/budget_tracker_project/budget_tracker_app.py).

The four SQLite tables are embedded as lists of row structures kept in
insertion order (SQLite scans and returns rows in rowid order here, since no
secondary index exists).  REAL amounts are embedded as rationals: every
comparison and sum the program performs on its decimal literals is exact.
Each database-mutating function of the source becomes a function
`Store → Store` (or `Store → result × Store`); `budget_summary`, which only
reads, becomes a pure function `Store → Summary`, and is additionally given
a state-threading form `budget_summary_run` that mirrors the sequence of
SELECT statements one by one to establish the read-only frame property.
-/

/-- A row of the `expenses` table: id, category, amount, due_date. -/
structure ExpenseRow where
  id : Nat
  category : String
  amount : ℚ
  due_date : String
deriving Repr, DecidableEq

/-- A row of the `income` table: id, category, amount, pay_date. -/
structure IncomeRow where
  id : Nat
  category : String
  amount : ℚ
  pay_date : String
deriving Repr, DecidableEq

/-- A row of the `budgets` table: id, category, budget_amount. -/
structure BudgetRow where
  id : Nat
  category : String
  budget_amount : ℚ
deriving Repr, DecidableEq

/-- A row of the `financial_goals` table: id, goal, target_amount,
saved_amount. -/
structure GoalRow where
  id : Nat
  goal : String
  target_amount : ℚ
  saved_amount : ℚ
deriving Repr, DecidableEq

/-- The whole database: the four tables, rows in insertion (rowid) order. -/
structure Store where
  expenses : List ExpenseRow
  income : List IncomeRow
  budgets : List BudgetRow
  financial_goals : List GoalRow
deriving Repr, DecidableEq

/-- `SELECT SUM(amount) FROM income`, with the source's `or 0.0` coalescing
of the NULL an empty table yields (the empty sum is 0 here as well). -/
def totalIncome (s : Store) : ℚ := (s.income.map IncomeRow.amount).sum

/-- `SELECT SUM(amount) FROM expenses`, coalesced to 0 when empty. -/
def totalExpenses (s : Store) : ℚ := (s.expenses.map ExpenseRow.amount).sum

/-- `SELECT SUM(budget_amount) FROM budgets`, coalesced to 0 when empty. -/
def totalBudgeted (s : Store) : ℚ := (s.budgets.map BudgetRow.budget_amount).sum

/-- Summed expense amount of one category (the SUM of the GROUP BY row). -/
def spentOn (s : Store) (c : String) : ℚ :=
  ((s.expenses.filter (fun r => r.category = c)).map ExpenseRow.amount).sum

/-- First occurrences of a list of category names, in order, duplicates
dropped (the distinct keys a GROUP BY produces). -/
def dedupFirstAux (seen : List String) : List String → List String
  | [] => []
  | x :: xs =>
    if x ∈ seen then dedupFirstAux seen xs
    else x :: dedupFirstAux (x :: seen) xs

/-- The distinct category names, first-occurrence order. -/
def dedupFirst (l : List String) : List String := dedupFirstAux [] l

/-- `SELECT category, SUM(amount) FROM expenses GROUP BY category`:
one (category, summed amount) pair per distinct expense category. -/
def expenseCategories (s : Store) : List (String × ℚ) :=
  (dedupFirst (s.expenses.map ExpenseRow.category)).map (fun c => (c, spentOn s c))

/-- `SELECT budget_amount FROM budgets WHERE category = ?` followed by
`fetchone()`: the budget_amount of the first matching row in rowid order,
or none when no row matches. -/
def findBudget (s : Store) (c : String) : Option ℚ :=
  (s.budgets.find? (fun b => b.category = c)).map BudgetRow.budget_amount

/-- The source's overall-status test: `within budget` when
`total_expenses <= total_budgeted and balance > 0`, else `over budget`.
It reads nothing but the three global amounts passed to it. -/
def statusOfTotals (total_expenses total_budgeted balance : ℚ) : String :=
  if total_expenses ≤ total_budgeted ∧ 0 < balance then "within budget"
  else "over budget"

/-- One iteration of the comparison loop, first list: when the budget
lookup succeeds and `expense_amount > budget_amount[0]`, the triple
(category, spent, budgeted) is appended to `over_budget_categories`. -/
def overEntry (s : Store) (ce : String × ℚ) : Option (String × ℚ × ℚ) :=
  match findBudget s ce.1 with
  | none => none
  | some b => if ce.2 > b then some (ce.1, ce.2, b) else none

/-- One iteration of the comparison loop, second list: when the budget
lookup returns no row, (category, spent) is appended to
`no_budget_categories`. -/
def noBudgetEntry (s : Store) (ce : String × ℚ) : Option (String × ℚ) :=
  match findBudget s ce.1 with
  | none => some ce
  | some _ => none

/-- The loop's first output list, in grouped-category order. -/
def overBudgetList (s : Store) : List (String × ℚ × ℚ) :=
  (expenseCategories s).filterMap (overEntry s)

/-- The loop's second output list, in grouped-category order. -/
def noBudgetList (s : Store) : List (String × ℚ) :=
  (expenseCategories s).filterMap (noBudgetEntry s)

/-- `SELECT goal FROM financial_goals WHERE saved_amount >= target_amount`:
the goal names of the rows meeting the criterion, in rowid order. -/
def achievedGoalsList (s : Store) : List String :=
  (s.financial_goals.filter (fun g => g.saved_amount ≥ g.target_amount)).map GoalRow.goal

/-- Everything `budget_summary` computes and prints. -/
structure Summary where
  total_income : ℚ
  total_expenses : ℚ
  total_budgeted : ℚ
  balance : ℚ
  budget_status : String
  over_budget_categories : List (String × ℚ × ℚ)
  no_budget_categories : List (String × ℚ)
  achieved_goals : List String
deriving Repr, DecidableEq

/-- The `budget_summary` function of the source: totals, per-category
comparison, balance, overall status and achieved goals, computed from the
current store contents. -/
def budget_summary (s : Store) : Summary :=
  let ti := totalIncome s
  let te := totalExpenses s
  let tb := totalBudgeted s
  let balance := ti - te
  { total_income := ti
    total_expenses := te
    total_budgeted := tb
    balance := balance
    budget_status := statusOfTotals te tb balance
    over_budget_categories := overBudgetList s
    no_budget_categories := noBudgetList s
    achieved_goals := achievedGoalsList s }

/-- The seed rows `create_database` inserts on first initialisation, ids
assigned 1..5 per table by the INTEGER PRIMARY KEY. -/
def seedStore : Store :=
  { expenses :=
      [⟨1, "Groceries", 50, "2024-12-01"⟩,
       ⟨2, "Utilities", 100, "2024-12-02"⟩,
       ⟨3, "Transport", 20, "2024-12-03"⟩,
       ⟨4, "Dining", 30, "2024-12-04"⟩,
       ⟨5, "Entertainment", 40, "2024-12-05"⟩]
    income :=
      [⟨1, "Salary", 2000, "2024-12-01"⟩,
       ⟨2, "Freelancing", 500, "2024-12-02"⟩,
       ⟨3, "Investments", 300, "2024-12-03"⟩,
       ⟨4, "Gifts", 100, "2024-12-04"⟩,
       ⟨5, "Other", 50, "2024-12-05"⟩]
    budgets :=
      [⟨1, "Groceries", 300⟩,
       ⟨2, "Utilities", 150⟩,
       ⟨3, "Transport", 100⟩,
       ⟨4, "Dining", 200⟩,
       ⟨5, "Entertainment", 150⟩]
    financial_goals :=
      [⟨1, "Buy a car", 20000, 5000⟩,
       ⟨2, "Vacation", 5000, 1500⟩,
       ⟨3, "Emergency fund", 10000, 3000⟩,
       ⟨4, "Home renovation", 15000, 4000⟩,
       ⟨5, "New laptop", 2000, 800⟩] }

/-- The next rowid an INTEGER PRIMARY KEY assigns: one more than the
largest id in the table. -/
def nextId (ids : List Nat) : Nat := ids.foldl max 0 + 1

/-- `set_budget`: if `SELECT budget_amount FROM budgets WHERE category = ?`
finds a row, `UPDATE budgets SET budget_amount = ? WHERE category = ?`
(all matching rows); otherwise `INSERT INTO budgets`. -/
def set_budget (s : Store) (c : String) (a : ℚ) : Store :=
  if (s.budgets.find? (fun b => b.category = c)).isSome then
    { s with budgets := s.budgets.map (fun b =>
        if b.category = c then { b with budget_amount := a } else b) }
  else
    { s with budgets :=
        s.budgets ++ [{ id := nextId (s.budgets.map BudgetRow.id),
                        category := c, budget_amount := a }] }

/-- C1: the overall status of budget_summary is computed by statusOfTotals
from the three global totals alone, and equals "within budget" exactly when
total expenses do not exceed total budgeted and the balance is positive,
and "over budget" otherwise. -/
theorem C1_overall_status (s : Store) :
    (budget_summary s).budget_status =
      statusOfTotals (totalExpenses s) (totalBudgeted s)
        (totalIncome s - totalExpenses s) ∧
    ((budget_summary s).budget_status = "within budget" ↔
      totalExpenses s ≤ totalBudgeted s ∧
        0 < totalIncome s - totalExpenses s) ∧
    ((budget_summary s).budget_status = "over budget" ↔
      ¬ (totalExpenses s ≤ totalBudgeted s ∧
        0 < totalIncome s - totalExpenses s)) := by
  refine ⟨rfl, ?_, ?_⟩ <;>
    · show statusOfTotals _ _ _ = _ ↔ _
      unfold statusOfTotals
      split <;> simp_all

/-- C3 (amended): starting from the seed data (total income 2950, total
expenses 240, total budgeted 900), after setting the Groceries budget to 10
the over-budget list is exactly [(Groceries, 50, 10)], yet the overall
status is still "within budget": total expenses 240 ≤ total budgeted 610
and balance 2710 > 0.  The claim's figure of 860 for the new total budgeted
is wrong: replacing the Groceries budget 300 by 10 leaves
900 − 300 + 10 = 610, and 860 = 900 − 50 + 10 subtracts the Groceries
expense instead of its previous budget. -/
theorem C3_seed_groceries_budget_10 :
    totalIncome seedStore = 2950 ∧
    totalExpenses seedStore = 240 ∧
    totalBudgeted seedStore = 900 ∧
    (budget_summary (set_budget seedStore "Groceries" 10)).over_budget_categories
      = [("Groceries", 50, 10)] ∧
    (budget_summary (set_budget seedStore "Groceries" 10)).budget_status
      = "within budget" ∧
    (budget_summary (set_budget seedStore "Groceries" 10)).total_expenses = 240 ∧
    (budget_summary (set_budget seedStore "Groceries" 10)).total_budgeted = 610 ∧
    (budget_summary (set_budget seedStore "Groceries" 10)).balance = 2710 := by
  simp [budget_summary, totalIncome, totalExpenses, totalBudgeted, set_budget,
    seedStore, overBudgetList, noBudgetList, overEntry, noBudgetEntry,
    expenseCategories, dedupFirst,
    dedupFirstAux, spentOn, findBudget, statusOfTotals, achievedGoalsList, nextId,
    List.find?_cons, List.filterMap_cons, List.filter_cons, List.sum_cons,
    String.reduceEq]
  norm_num

/-- C3, the claim as frozen, is false at its own input: after setting the
Groceries budget to 10 from the seed data, the total budgeted amount is not
860 (it is 610 = 900 − 300 + 10). -/
theorem C3_total_budgeted_not_860 :
    (budget_summary (set_budget seedStore "Groceries" 10)).total_budgeted ≠ 860 := by
  simp [budget_summary, totalBudgeted, set_budget, seedStore, nextId,
    List.find?_cons, List.sum_cons, String.reduceEq]
  norm_num

/-- Result of an insert that checks for an existing category first. -/
inductive InsertResult where
  | duplicateCategory
  | inserted
deriving Repr, DecidableEq

/-- `insert_expense`: `SELECT category FROM expenses WHERE category = ?`;
if `fetchone()` finds a row the insert is rejected (the source prints
"Category already exists" and commits nothing), else the row is inserted. -/
def insert_expense (s : Store) (c : String) (a : ℚ) (d : String) :
    InsertResult × Store :=
  if (s.expenses.find? (fun r => r.category = c)).isSome then
    (InsertResult.duplicateCategory, s)
  else
    (InsertResult.inserted,
     { s with expenses := s.expenses ++
         [{ id := nextId (s.expenses.map ExpenseRow.id),
            category := c, amount := a, due_date := d }] })

/-- `insert_income`: same duplicate check against the income table. -/
def insert_income (s : Store) (c : String) (a : ℚ) (d : String) :
    InsertResult × Store :=
  if (s.income.find? (fun r => r.category = c)).isSome then
    (InsertResult.duplicateCategory, s)
  else
    (InsertResult.inserted,
     { s with income := s.income ++
         [{ id := nextId (s.income.map IncomeRow.id),
            category := c, amount := a, pay_date := d }] })

/-- `update_expense`'s database effect:
`UPDATE expenses SET amount = ? WHERE category = ?` — every row whose
category equals the key gets the new amount; no row means no change and no
error. -/
def update_expense (s : Store) (c : String) (a : ℚ) : Store :=
  { s with expenses := s.expenses.map (fun r =>
      if r.category = c then { r with amount := a } else r) }

/-- `update_income`'s database effect:
`UPDATE income SET amount = ? WHERE category = ?`. -/
def update_income (s : Store) (c : String) (a : ℚ) : Store :=
  { s with income := s.income.map (fun r =>
      if r.category = c then { r with amount := a } else r) }

/-- `delete_expense`: `DELETE FROM expenses WHERE category = ?` then
`DELETE FROM budgets WHERE category = ?`, both in one commit. -/
def delete_expense (s : Store) (c : String) : Store :=
  { s with
      expenses := s.expenses.filter (fun r => ¬ r.category = c)
      budgets := s.budgets.filter (fun b => ¬ b.category = c) }

/-- `delete_income`: `DELETE FROM income WHERE category = ?`. -/
def delete_income (s : Store) (c : String) : Store :=
  { s with income := s.income.filter (fun r => ¬ r.category = c) }

/-- `set_financial_goal`: plain `INSERT INTO financial_goals`, no duplicate
check. -/
def set_financial_goal (s : Store) (g : String) (t sv : ℚ) : Store :=
  { s with financial_goals := s.financial_goals ++
      [{ id := nextId (s.financial_goals.map GoalRow.id),
         goal := g, target_amount := t, saved_amount := sv }] }

/-- `update_financial_goal`: the source first fetches the row
(`SELECT * FROM financial_goals WHERE goal = ?`, `result[3]`); when no row
matches that subscript raises, the blanket except catches it and the UPDATE
is never reached, leaving the store unchanged; when a row matches,
`UPDATE financial_goals SET saved_amount = ? WHERE goal = ?` sets every
matching row's saved amount. -/
def update_financial_goal (s : Store) (g : String) (a : ℚ) : Store :=
  match s.financial_goals.find? (fun r => r.goal = g) with
  | none => s
  | some _ =>
    { s with financial_goals := s.financial_goals.map (fun r =>
        if r.goal = g then { r with saved_amount := a } else r) }

/-- `delete_financial_goal`: `DELETE FROM financial_goals WHERE goal = ?`. -/
def delete_financial_goal (s : Store) (g : String) : Store :=
  { s with financial_goals := s.financial_goals.filter (fun r => ¬ r.goal = g) }

/-- One user-triggered mutating operation of the application (the read-only
view/summary actions have no database effect). -/
inductive Op where
  | insertExpense (c : String) (a : ℚ) (d : String)
  | updateExpense (c : String) (a : ℚ)
  | deleteExpense (c : String)
  | insertIncome (c : String) (a : ℚ) (d : String)
  | updateIncome (c : String) (a : ℚ)
  | deleteIncome (c : String)
  | setBudget (c : String) (a : ℚ)
  | setFinancialGoal (g : String) (t sv : ℚ)
  | updateFinancialGoal (g : String) (a : ℚ)
  | deleteFinancialGoal (g : String)

/-- The store an operation leaves behind. -/
def applyOp : Op → Store → Store
  | Op.insertExpense c a d, s => (insert_expense s c a d).2
  | Op.updateExpense c a, s => update_expense s c a
  | Op.deleteExpense c, s => delete_expense s c
  | Op.insertIncome c a d, s => (insert_income s c a d).2
  | Op.updateIncome c a, s => update_income s c a
  | Op.deleteIncome c, s => delete_income s c
  | Op.setBudget c a, s => set_budget s c a
  | Op.setFinancialGoal g t sv, s => set_financial_goal s g t sv
  | Op.updateFinancialGoal g a, s => update_financial_goal s g a
  | Op.deleteFinancialGoal g, s => delete_financial_goal s g

/-- The stores the application can reach: the seed data followed by any
sequence of menu operations. -/
inductive Reachable : Store → Prop where
  | seed : Reachable seedStore
  | step (s : Store) (op : Op) : Reachable s → Reachable (applyOp op s)

/-- At most one budgets row per category text. -/
def budgetUnique (s : Store) : Prop :=
  (s.budgets.map BudgetRow.category).Nodup

/-- `SELECT SUM(amount) FROM income` as a step on the database state. -/
def readTotalIncome (s : Store) : ℚ × Store := (totalIncome s, s)

/-- `SELECT SUM(amount) FROM expenses` as a step on the database state. -/
def readTotalExpenses (s : Store) : ℚ × Store := (totalExpenses s, s)

/-- `SELECT SUM(budget_amount) FROM budgets` as a step on the state. -/
def readTotalBudgeted (s : Store) : ℚ × Store := (totalBudgeted s, s)

/-- `SELECT category, SUM(amount) FROM expenses GROUP BY category` as a
step on the database state. -/
def readExpenseCategories (s : Store) : List (String × ℚ) × Store :=
  (expenseCategories s, s)

/-- The per-iteration `SELECT budget_amount FROM budgets WHERE category = ?`
plus `fetchone()` as a step on the database state. -/
def readBudgetFor (c : String) (s : Store) : Option ℚ × Store :=
  (findBudget s c, s)

/-- The achieved-goals SELECT as a step on the database state. -/
def readAchievedGoals (s : Store) : List String × Store :=
  (achievedGoalsList s, s)

/-- The comparison loop with the database state threaded through each
budget lookup, accumulating the over-budget and no-budget lists. -/
def classifyLoop : Store → List (String × ℚ) →
    (List (String × ℚ × ℚ) × List (String × ℚ)) × Store
  | s, [] => (([], []), s)
  | s, ce :: rest =>
    let rb := readBudgetFor ce.1 s
    let tail := classifyLoop rb.2 rest
    match rb.1 with
    | none => ((tail.1.1, ce :: tail.1.2), tail.2)
    | some b =>
      (if ce.2 > b then ((ce.1, ce.2, b) :: tail.1.1, tail.1.2) else tail.1,
       tail.2)

/-- `budget_summary` with every SELECT taken as a state step, in the
order the source executes them. -/
def budget_summary_run (s0 : Store) : Summary × Store :=
  let r1 := readTotalIncome s0
  let r2 := readTotalExpenses r1.2
  let r3 := readTotalBudgeted r2.2
  let r4 := readExpenseCategories r3.2
  let r5 := classifyLoop r4.2 r4.1
  let r6 := readAchievedGoals r5.2
  ({ total_income := r1.1
     total_expenses := r2.1
     total_budgeted := r3.1
     balance := r1.1 - r2.1
     budget_status := statusOfTotals r2.1 r3.1 (r1.1 - r2.1)
     over_budget_categories := r5.1.1
     no_budget_categories := r5.1.2
     achieved_goals := r6.1 }, r6.2)

/-- The threaded comparison loop touches nothing: it returns the state it
was given and the two filterMap lists of the pure form. -/
theorem classifyLoop_eq (s : Store) (cats : List (String × ℚ)) :
    classifyLoop s cats =
      ((cats.filterMap (overEntry s), cats.filterMap (noBudgetEntry s)), s) := by
  induction cats with
  | nil => rfl
  | cons ce rest ih =>
    simp only [classifyLoop, readBudgetFor, List.filterMap_cons, ih]
    unfold overEntry noBudgetEntry
    cases hfb : findBudget s ce.1 with
    | none => simp
    | some b =>
      by_cases hgt : ce.2 > b
      · simp [hgt]
      · simp [hgt]

/-- C4: when any existing Expense row already carries category `c`, the
insert is rejected with a duplicate-category result and the store is
returned exactly as it was: no row inserted or modified in any table. -/
theorem C4_duplicate_category_rejected (s : Store) (c : String) (a : ℚ)
    (d : String) (h : ∃ r ∈ s.expenses, r.category = c) :
    insert_expense s c a d = (InsertResult.duplicateCategory, s) := by
  unfold insert_expense
  have hfind : (s.expenses.find? (fun r => r.category = c)).isSome := by
    rw [List.find?_isSome]
    obtain ⟨r, hr, hc⟩ := h
    exact ⟨r, hr, by simp [hc]⟩
  simp [hfind]

/-- C4 witness: inserting a second "Groceries" expense into the seed store
is rejected and leaves the seed store unchanged. -/
theorem C4_witness :
    insert_expense seedStore "Groceries" 5 "2025-01-01" =
      (InsertResult.duplicateCategory, seedStore) :=
  C4_duplicate_category_rejected seedStore "Groceries" 5 "2025-01-01"
    ⟨⟨1, "Groceries", 50, "2024-12-01"⟩, by simp [seedStore], rfl⟩

/-- C6: deleting the Expense with category `c` removes exactly the Expense
rows and Budget rows whose category is `c`, keeps every other Expense and
Budget row, leaves income and financial_goals untouched, and when no
Budget row carries `c` the budgets table is unchanged. -/
theorem C6_delete_expense_cascade (s : Store) (c : String) :
    (delete_expense s c).expenses = s.expenses.filter (fun r => ¬ r.category = c) ∧
    (delete_expense s c).budgets = s.budgets.filter (fun b => ¬ b.category = c) ∧
    (delete_expense s c).income = s.income ∧
    (delete_expense s c).financial_goals = s.financial_goals ∧
    (∀ r ∈ (delete_expense s c).expenses, r.category ≠ c) ∧
    (∀ r ∈ s.expenses, r.category ≠ c → r ∈ (delete_expense s c).expenses) ∧
    (∀ b ∈ (delete_expense s c).budgets, b.category ≠ c) ∧
    (∀ b ∈ s.budgets, b.category ≠ c → b ∈ (delete_expense s c).budgets) ∧
    ((∀ b ∈ s.budgets, b.category ≠ c) → (delete_expense s c).budgets = s.budgets) := by
  refine ⟨rfl, rfl, rfl, rfl, ?_, ?_, ?_, ?_, ?_⟩
  · intro r hr
    have := (List.mem_filter.mp hr).2
    simpa using this
  · intro r hr hc
    exact List.mem_filter.mpr ⟨hr, by simpa using hc⟩
  · intro b hb
    have := (List.mem_filter.mp hb).2
    simpa using this
  · intro b hb hc
    exact List.mem_filter.mpr ⟨hb, by simpa using hc⟩
  · intro hall
    show s.budgets.filter (fun b => ¬ b.category = c) = s.budgets
    rw [List.filter_eq_self]
    intro b hb
    simpa using hall b hb

/-- C5: `UPDATE ... SET amount = ? WHERE <key> = ?` semantics at
update_expense (lines 420-423) and update_financial_goal (lines 792-794):
a key matching no row leaves the whole store unchanged with no error; a
matching key sets the amount field of all rows whose category (resp. goal)
equals the key, every other row and every other table unchanged. -/
theorem C5_update_amount_semantics (s : Store) (key : String) (a : ℚ) :
    ((∀ r ∈ s.expenses, r.category ≠ key) → update_expense s key a = s) ∧
    ((∀ g ∈ s.financial_goals, g.goal ≠ key) → update_financial_goal s key a = s) ∧
    (∀ i : Nat, (update_expense s key a).expenses.get? i =
      (s.expenses.get? i).map (fun r =>
        if r.category = key then { r with amount := a } else r)) ∧
    (update_expense s key a).income = s.income ∧
    (update_expense s key a).budgets = s.budgets ∧
    (update_expense s key a).financial_goals = s.financial_goals ∧
    (∀ i : Nat, (update_financial_goal s key a).financial_goals.get? i =
      (s.financial_goals.get? i).map (fun g =>
        if g.goal = key then { g with saved_amount := a } else g)) ∧
    (update_financial_goal s key a).expenses = s.expenses ∧
    (update_financial_goal s key a).income = s.income ∧
    (update_financial_goal s key a).budgets = s.budgets := by
  refine ⟨?_, ?_, ?_, rfl, rfl, rfl, ?_, ?_, ?_, ?_⟩
  · intro hnone
    unfold update_expense
    have hmap : s.expenses.map (fun r =>
        if r.category = key then { r with amount := a } else r) = s.expenses := by
      conv_rhs => rw [← List.map_id s.expenses]
      exact List.map_congr_left (fun r hr => if_neg (hnone r hr))
    rw [hmap]
  · intro hnone
    unfold update_financial_goal
    cases hf : s.financial_goals.find? (fun r => r.goal = key) with
    | none => rfl
    | some g0 =>
      have hmem := List.mem_of_find?_eq_some hf
      have hp := List.find?_some hf
      exact absurd (by simpa using hp) (hnone g0 hmem)
  · intro i
    unfold update_expense
    exact List.get?_map _ _ _
  · intro i
    unfold update_financial_goal
    cases hf : s.financial_goals.find? (fun r => r.goal = key) with
    | some g0 => exact List.get?_map _ _ _
    | none =>
      cases hg : s.financial_goals.get? i with
      | none => simp [hg]
      | some g =>
        have hmem := List.get?_mem hg
        have hne : ¬ g.goal = key := by
          have := List.find?_eq_none.mp hf g hmem
          simpa using this
      
        simp [hg, if_neg hne]
  · unfold update_financial_goal
    cases s.financial_goals.find? (fun r => r.goal = key) <;> rfl
  · unfold update_financial_goal
    cases s.financial_goals.find? (fun r => r.goal = key) <;> rfl
  · unfold update_financial_goal
    cases s.financial_goals.find? (fun r => r.goal = key) <;> rfl

/-- C8: budget_summary only reads: running it as the sequence of SELECT
steps the source executes returns every table of the store exactly as it
was, and its result is the pure summary of that store. -/
theorem C8_summary_reads_only (s : Store) :
    (budget_summary_run s).2 = s ∧
    (budget_summary_run s).2.expenses = s.expenses ∧
    (budget_summary_run s).2.income = s.income ∧
    (budget_summary_run s).2.budgets = s.budgets ∧
    (budget_summary_run s).2.financial_goals = s.financial_goals ∧
    (budget_summary_run s).1 = budget_summary s := by
  have h : budget_summary_run s = (budget_summary s, s) := by
    simp only [budget_summary_run, budget_summary, readTotalIncome,
      readTotalExpenses, readTotalBudgeted, readExpenseCategories,
      readAchievedGoals, classifyLoop_eq, overBudgetList, noBudgetList]
  rw [h]
  exact ⟨rfl, rfl, rfl, rfl, rfl, rfl⟩

/-- C7: a goal name is reported achieved exactly when some goal row with
that name has saved_amount ≥ target_amount; a row with saved = target is
achieved, and a row with saved = target − 0.01 (its name shared with no
other row) is not reported. -/
theorem C7_goal_achievement (s : Store) (name : String) :
    (name ∈ (budget_summary s).achieved_goals ↔
      ∃ g ∈ s.financial_goals, g.goal = name ∧ g.saved_amount ≥ g.target_amount) ∧
    (∀ g ∈ s.financial_goals, g.saved_amount = g.target_amount →
      g.goal ∈ (budget_summary s).achieved_goals) ∧
    (∀ g ∈ s.financial_goals, g.saved_amount = g.target_amount - 1/100 →
      (∀ g2 ∈ s.financial_goals, g2.goal = g.goal → g2 = g) →
      g.goal ∉ (budget_summary s).achieved_goals) := by
  have hmem : ∀ n : String, n ∈ (budget_summary s).achieved_goals ↔
      ∃ g ∈ s.financial_goals, g.goal = n ∧ g.saved_amount ≥ g.target_amount := by
    intro n
    show n ∈ achievedGoalsList s ↔ _
    unfold achievedGoalsList
    simp only [List.mem_map, List.mem_filter, decide_eq_true_eq]
    constructor
    · rintro ⟨g, ⟨hg, hge⟩, hn⟩
      exact ⟨g, hg, hn, hge⟩
    · rintro ⟨g, hg, hn, hge⟩
      exact ⟨g, ⟨hg, hge⟩, hn⟩
  refine ⟨hmem name, ?_, ?_⟩
  · intro g hg heq
    exact (hmem g.goal).mpr ⟨g, hg, rfl, le_of_eq heq.symm⟩
  · intro g hg heq huniq hin
    obtain ⟨g2, hg2, hname, hge⟩ := (hmem g.goal).mp hin
    have : g2 = g := huniq g2 hg2 hname
    subst this
    rw [heq] at hge
    linarith

/-- A grouped (category, spent) pair's second component is the summed
amount of that category. -/
theorem mem_expenseCategories_spent {s : Store} {x : String} {v : ℚ}
    (h : (x, v) ∈ expenseCategories s) : v = spentOn s x := by
  unfold expenseCategories at h
  obtain ⟨c, _, hc⟩ := List.mem_map.mp h
  obtain ⟨h1, h2⟩ := Prod.mk.injEq .. ▸ hc
  subst h1
  exact h2.symm

/-- Inversion of one over-budget loop iteration: an emitted triple carries
the iteration's category and spent amount, the first matching budget row's
amount, and the strict over-spend comparison. -/
theorem overEntry_some {s : Store} {ce : String × ℚ} {p : String × ℚ × ℚ}
    (h : overEntry s ce = some p) :
    findBudget s ce.1 = some p.2.2 ∧ p.1 = ce.1 ∧ p.2.1 = ce.2 ∧ ce.2 > p.2.2 := by
  unfold overEntry at h
  cases hfb : findBudget s ce.1 with
  | none => simp [hfb] at h
  | some b =>
    simp only [hfb] at h
    by_cases hgt : ce.2 > b
    · rw [if_pos hgt] at h
      injection h with h2
      subst h2
      exact ⟨rfl, rfl, rfl, hgt⟩
    · rw [if_neg hgt] at h
      exact Option.noConfusion h

/-- Inversion of one no-budget loop iteration: an emitted pair is the
iteration's own (category, spent) and its budget lookup found no row. -/
theorem noBudgetEntry_some {s : Store} {ce q : String × ℚ}
    (h : noBudgetEntry s ce = some q) :
    findBudget s ce.1 = none ∧ q = ce := by
  unfold noBudgetEntry at h
  cases hfb : findBudget s ce.1 with
  | none =>
    simp only [hfb] at h
    injection h with h2
    exact ⟨rfl, h2.symm⟩
  | some b => simp [hfb] at h

/-- C2: for a grouped expense category of the summary: no matching Budget
row puts it (with its spent amount) in the no-budget list and keeps it out
of the over-budget list; a matching Budget row with spent over budgeted
puts (category, spent, budgeted) in the over-budget list; a matching
Budget row with spent within budget keeps the category out of both
lists. -/
theorem C2_category_classification (s : Store) (c : String) (spent : ℚ)
    (h : (c, spent) ∈ expenseCategories s) :
    (findBudget s c = none →
      (c, spent) ∈ (budget_summary s).no_budget_categories ∧
      ∀ p ∈ (budget_summary s).over_budget_categories, p.1 ≠ c) ∧
    (∀ b, findBudget s c = some b → spent > b →
      (c, spent, b) ∈ (budget_summary s).over_budget_categories) ∧
    (∀ b, findBudget s c = some b → spent ≤ b →
      (∀ p ∈ (budget_summary s).over_budget_categories, p.1 ≠ c) ∧
      (∀ q ∈ (budget_summary s).no_budget_categories, q.1 ≠ c)) := by
  refine ⟨?_, ?_, ?_⟩
  · intro hnone
    constructor
    · show (c, spent) ∈ noBudgetList s
      unfold noBudgetList
      refine List.mem_filterMap.mpr ⟨(c, spent), h, ?_⟩
      unfold noBudgetEntry
      rw [hnone]
    · intro p hp hpc
      obtain ⟨ce, _, hce⟩ := List.mem_filterMap.mp hp
      obtain ⟨hfb, hp1, _, _⟩ := overEntry_some hce
      rw [hp1.symm.trans hpc] at hfb
      rw [hfb] at hnone
      exact Option.noConfusion hnone
  · intro b hb hgt
    show (c, spent, b) ∈ overBudgetList s
    unfold overBudgetList
    refine List.mem_filterMap.mpr ⟨(c, spent), h, ?_⟩
    unfold overEntry
    simp [hb, hgt]
  · intro b hb hle
    have hspent := mem_expenseCategories_spent h
    constructor
    · intro p hp hpc
      obtain ⟨ce, hcemem, hce⟩ := List.mem_filterMap.mp hp
      obtain ⟨hfb, hp1, _, hgt⟩ := overEntry_some hce
      have hc1 : ce.1 = c := hp1.symm.trans hpc
      have hv : ce.2 = spentOn s c := by
        have hm : (ce.1, ce.2) ∈ expenseCategories s := hcemem
        rw [hc1] at hm
        exact mem_expenseCategories_spent hm
      rw [hc1] at hfb
      rw [hfb] at hb
      injection hb with hb2
      rw [hv, ← hspent, hb2] at hgt
      exact absurd hle (not_le.mpr hgt)
    · intro q hq hqc
      obtain ⟨ce, _, hce⟩ := List.mem_filterMap.mp hq
      obtain ⟨hfb, hq1⟩ := noBudgetEntry_some hce
      rw [hq1] at hqc
      rw [show ce.1 = c from hqc] at hfb
      rw [hfb] at hb
      exact Option.noConfusion hb

/-- C10: when the budgets table is pre ++ r :: post and no row of pre has
r's category, the summary's lookup for that category returns r's amount
(later duplicate rows are ignored by the comparison): an over-budget entry
is emitted exactly against r's amount, any over-budget entry for that
category carries r's amount, the category is never in the no-budget list,
and every row — later duplicates included — still counts in the budgeted
total. -/
theorem C10_first_matching_budget_row (s : Store) (pre post : List BudgetRow)
    (r : BudgetRow) (spent : ℚ)
    (hb : s.budgets = pre ++ r :: post)
    (hpre : ∀ b ∈ pre, b.category ≠ r.category)
    (hmem : (r.category, spent) ∈ expenseCategories s) :
    findBudget s r.category = some r.budget_amount ∧
    (spent > r.budget_amount →
      (r.category, spent, r.budget_amount) ∈ (budget_summary s).over_budget_categories) ∧
    (∀ p ∈ (budget_summary s).over_budget_categories,
      p.1 = r.category → p = (r.category, spent, r.budget_amount)) ∧
    (∀ q ∈ (budget_summary s).no_budget_categories, q.1 ≠ r.category) ∧
    totalBudgeted s =
      (pre.map BudgetRow.budget_amount).sum + r.budget_amount +
        (post.map BudgetRow.budget_amount).sum ∧
    (budget_summary s).total_budgeted = totalBudgeted s := by
  have hfind : findBudget s r.category = some r.budget_amount := by
    unfold findBudget
    rw [hb, List.find?_append]
    have h1 : pre.find? (fun b => b.category = r.category) = none :=
      List.find?_eq_none.mpr (fun b hb2 => by simpa using hpre b hb2)
    have h2 : (r :: post).find? (fun b => b.category = r.category) = some r :=
      List.find?_cons_of_pos _ (by simp)
    rw [h1, h2]
    rfl
  refine ⟨hfind, ?_, ?_, ?_, ?_, rfl⟩
  · intro hgt
    show _ ∈ overBudgetList s
    unfold overBudgetList
    refine List.mem_filterMap.mpr ⟨(r.category, spent), hmem, ?_⟩
    unfold overEntry
    simp [hfind, hgt]
  · intro p hp hpc
    obtain ⟨ce, hcemem, hce⟩ := List.mem_filterMap.mp hp
    obtain ⟨hfb, hp1, hp2, _⟩ := overEntry_some hce
    have hc1 : ce.1 = r.category := hp1.symm.trans hpc
    have hsp : ce.2 = spentOn s r.category := by
      have hm : (ce.1, ce.2) ∈ expenseCategories s := hcemem
      rw [hc1] at hm
      exact mem_expenseCategories_spent hm
    have hspent2 : spent = spentOn s r.category := mem_expenseCategories_spent hmem
    rw [hc1, hfind] at hfb
    injection hfb with hfb2
    have hsplit : p = (p.1, p.2.1, p.2.2) := rfl
    rw [hsplit, hpc, hp2, hsp, ← hspent2, ← hfb2]
  · intro q hq hqc
    obtain ⟨ce, _, hce⟩ := List.mem_filterMap.mp hq
    obtain ⟨hfb, hq1⟩ := noBudgetEntry_some hce
    rw [hq1] at hqc
    rw [hqc] at hfb
    rw [hfb] at hfind
    exact Option.noConfusion hfind
  · unfold totalBudgeted
    rw [hb]
    simp [List.map_append, List.sum_append, List.sum_cons]
    ring

/-- A store with two budget rows for the same category "A": the witness
input for C10. -/
def dupBudgetStore : Store :=
  { expenses := [⟨1, "A", 50, "2024-01-01"⟩]
    income := []
    budgets := [⟨1, "A", 10⟩, ⟨2, "A", 99⟩]
    financial_goals := [] }

/-- C10 witness: with budget rows [("A", 10), ("A", 99)], the comparison
for category "A" sees the first row's amount 10. -/
theorem C10_witness : findBudget dupBudgetStore "A" = some (10 : ℚ) :=
  (C10_first_matching_budget_row dupBudgetStore [] [⟨2, "A", 99⟩] ⟨1, "A", 10⟩ 50
    rfl (by simp)
    (by simp [expenseCategories, dedupFirst, dedupFirstAux, spentOn,
          dupBudgetStore, List.filter_cons, String.reduceEq])).1

/-- Stores with equal budgets tables agree on budget-category
uniqueness. -/
theorem budgetUnique_of_budgets_eq {s t : Store} (h : t.budgets = s.budgets)
    (hu : budgetUnique s) : budgetUnique t := by
  unfold budgetUnique at *
  rw [h]
  exact hu

/-- set_budget keeps at most one budgets row per category: the UPDATE
branch rewrites amounts only, the INSERT branch only fires when no row of
that category exists. -/
theorem budgetUnique_set_budget (s : Store) (c : String) (a : ℚ)
    (h : budgetUnique s) : budgetUnique (set_budget s c a) := by
  unfold budgetUnique set_budget at *
  by_cases hex : (s.budgets.find? (fun b => b.category = c)).isSome
  · rw [if_pos hex]
    show (List.map BudgetRow.category (s.budgets.map _)).Nodup
    rw [List.map_map]
    have hfun : (BudgetRow.category ∘ fun b =>
        if b.category = c then { b with budget_amount := a } else b) =
        BudgetRow.category := by
      funext b
      by_cases hbc : b.category = c
      · simp [hbc]
      · simp [hbc]
    rw [hfun]
    exact h
  · rw [if_neg hex]
    show (List.map BudgetRow.category (s.budgets ++ [_])).Nodup
    rw [List.map_append, List.nodup_append]
    refine ⟨h, List.nodup_singleton _, ?_⟩
    have hnone : s.budgets.find? (fun b => b.category = c) = none := by
      cases hf : s.budgets.find? (fun b => b.category = c) with
      | none => rfl
      | some _ => exact absurd (by simp [hf]) hex
    intro x hx hx2
    have hx2' : x = c := by simpa using hx2
    obtain ⟨b, hbmem, hbcat⟩ := List.mem_map.mp hx
    have hnb := List.find?_eq_none.mp hnone b hbmem
    exact hnb (by simp [hbcat.trans hx2'])

/-- Deleting never duplicates: the cascade delete keeps budgets a sublist
of what it was. -/
theorem budgetUnique_delete_expense (s : Store) (c : String)
    (h : budgetUnique s) : budgetUnique (delete_expense s c) := by
  unfold budgetUnique delete_expense at *
  exact h.sublist ((List.filter_sublist _).map _)

/-- C9: every store the application can reach from the seed data keeps at
most one budgets row per category text. -/
theorem C9_budget_unique_reachable (s : Store) (h : Reachable s) :
    budgetUnique s := by
  induction h with
  | seed =>
    show (List.map BudgetRow.category seedStore.budgets).Nodup
    decide
  | step s op hR ih =>
    cases op with
    | insertExpense c a d =>
      refine budgetUnique_of_budgets_eq ?_ ih
      show ((insert_expense s c a d).2).budgets = s.budgets
      unfold insert_expense
      split <;> rfl
    | updateExpense c a => exact budgetUnique_of_budgets_eq rfl ih
    | deleteExpense c => exact budgetUnique_delete_expense s c ih
    | insertIncome c a d =>
      refine budgetUnique_of_budgets_eq ?_ ih
      show ((insert_income s c a d).2).budgets = s.budgets
      unfold insert_income
      split <;> rfl
    | updateIncome c a => exact budgetUnique_of_budgets_eq rfl ih
    | deleteIncome c => exact budgetUnique_of_budgets_eq rfl ih
    | setBudget c a => exact budgetUnique_set_budget s c a ih
    | setFinancialGoal g t sv => exact budgetUnique_of_budgets_eq rfl ih
    | updateFinancialGoal g a =>
      refine budgetUnique_of_budgets_eq ?_ ih
      show (update_financial_goal s g a).budgets = s.budgets
      unfold update_financial_goal
      cases s.financial_goals.find? (fun r => r.goal = g) <;> rfl
    | deleteFinancialGoal g => exact budgetUnique_of_budgets_eq rfl ih

/-- C9 witness: the store reached by one set_budget step from the seed
data has unique budget categories. -/
theorem C9_witness :
    budgetUnique (applyOp (Op.setBudget "Groceries" 10) seedStore) :=
  C9_budget_unique_reachable _
    (Reachable.step seedStore (Op.setBudget "Groceries" 10) Reachable.seed)

/-- A store with an expense category that has no budget row: the witness
input for C2. -/
def noBudgetStore : Store :=
  { expenses := [⟨1, "B", 20, "2024-01-01"⟩]
    income := []
    budgets := []
    financial_goals := [] }

/-- C2 witness: category "B" spent 20 with no budget row lands in the
no-budget list. -/
theorem C2_witness :
    ("B", (20 : ℚ)) ∈ (budget_summary noBudgetStore).no_budget_categories :=
  ((C2_category_classification noBudgetStore "B" 20
      (by simp [expenseCategories, dedupFirst, dedupFirstAux, spentOn,
            noBudgetStore, List.filter_cons, String.reduceEq])).1 rfl).1
